import Mathlib

/-!
Verification development for the signal-fusion and calibration engine of the
fake-news detection backend (`src/backend/services/improved_detection.py`).

Scores are embedded as exact rationals (`ℚ`); the two confidence values that
the Python code computes with a real exponent (`** 1.5`) are embedded over
`ℝ` in separate definitions, so that everything else stays executable.
-/

namespace ImprovedDetection

/-- A verification report dict as built by `improved_detection` (lines 650-674
of `improved_detection.py`): both the dict assembled from a successful
`comprehensive_verification` call and the neutral fallback dict carry exactly
the keys modelled here (besides presentation-only fields such as
`entity_results`, `claim_results` and `provider`). -/
structure SuccessReport where
  overall_score : ℚ
  tavily_coverage : ℚ
  entities_found : ℕ
  entities_checked : ℕ
  claims_verified : ℕ
  claims_checked : ℕ
deriving DecidableEq, Repr

/-- The claims ratio the fast-path gate computes:
`claims_verified / total_claims if total_claims > 0 else 0.0`, where both
numbers come from the report dict (`verification_summary` is absent from every
dict this pipeline builds, so the fallback lookups apply). -/
def gateClaimsRatio (R : SuccessReport) : ℚ :=
  if (0 : ℚ) < (R.claims_checked : ℚ) then (R.claims_verified : ℚ) / (R.claims_checked : ℚ) else 0

/-- The entities ratio the fast-path gate computes:
`entities_found / total_entities if total_entities > 0 else 0.0`. -/
def gateEntitiesRatio (R : SuccessReport) : ℚ :=
  if (0 : ℚ) < (R.entities_checked : ℚ) then (R.entities_found : ℚ) / (R.entities_checked : ℚ) else 0

/-- The fast-path gate condition (lines 696-698): all six thresholds must hold. -/
def fastPathGate (R : SuccessReport) : Bool :=
  decide (R.overall_score ≥ 0.75 ∧ R.tavily_coverage ≥ 0.65 ∧
    gateClaimsRatio R ≥ 0.75 ∧ gateEntitiesRatio R ≥ 0.70 ∧
    R.claims_checked ≥ 2 ∧ R.entities_checked ≥ 2)

/-- Fast-path fake probability (line 706):
`max(0.0, 0.15 - (tavily_score - 0.75) * 0.3)`. -/
def fastFakeProb (s : ℚ) : ℚ := max 0 (0.15 - (s - 0.75) * 0.3)

/-- Rational payload of the abbreviated fast-path `final_prediction` (lines
728-731); its real-valued confidence is `fastConfidence` below. -/
structure FastResult where
  prediction : String
  fake_probability : ℚ
deriving DecidableEq, Repr

/-- The abbreviated result the fast path returns (lines 715-731). -/
def fastPathResult (R : SuccessReport) : FastResult :=
  { prediction := "real", fake_probability := fastFakeProb R.overall_score }

/-- Python `x ** 1.5` for a nonnegative real `x`, written as `sqrt (x ^ 3)`. -/
noncomputable def pow15 (x : ℝ) : ℝ := Real.sqrt (x ^ 3)

/-- Fast-path confidence (lines 707-713): `(|p - 0.5| * 2) ** 1.5`, plus `0.15`
(capped at 1) when `tavily_score > 0.75`, and a final clamp to `[0, 1]`. -/
noncomputable def fastConfidence (s : ℚ) : ℝ :=
  let p : ℚ := fastFakeProb s
  let base : ℝ := pow15 (|(p : ℝ) - 0.5| * 2)
  let c : ℝ := if s > 0.75 then min 1 (base + 0.15) else base
  max 0 (min 1 c)

/-- The `tavily_verification` value handed to the full-path calibrator: the
empty dict (verification disabled or no verifier), a report dict from the
verification stage, or the error dict `{'error': msg, 'overall_score': 0.0,
'tavily_coverage': 0.0, ...}` built by the exception handler (line 781). -/
inductive CalibVerif
  | empty
  | success (R : SuccessReport)
  | failed (msg : String)
deriving DecidableEq, Repr

/-- The `(tavily_score, tavily_coverage, claims_verified)` triple the
calibrator reads from the `tavily_verification` dict, `none` when the dict is
empty or lacks `overall_score` (the guard on line 1360).  The error dict has
`overall_score` 0 and coverage 0 and no `claims_verified` key, so the
`.get(..., 0)` defaults yield `(0, 0, 0)`. -/
def calibFields : CalibVerif → Option (ℚ × ℚ × ℚ)
  | .empty => none
  | .success R => some (R.overall_score, R.tavily_coverage, (R.claims_verified : ℚ))
  | .failed _ => some (0, 0, 0)

/-- Outcome of the bounded verification call on the POSIX code path (lines
621-674): the provider returned a result, the 10-second `SIGALRM` fired
(raising `TimeoutError` inside the inner `try`), or some other exception was
raised (propagating to the outer handler on line 779). -/
inductive VerifOutcome
  | ok (raw : SuccessReport)
  | timeout
  | exc (msg : String)
deriving DecidableEq, Repr

/-- The neutral fallback dict built when `verification_result` is `None`
(lines 663-674) with `quick_score = 0.5`, as happens after a caught timeout:
`overall_score = 0.5`, coverage `0.5` (since `0.5 > 0.5` is false), entities
`1/1`, claims `0/1` (since `0.5 > 0.7` is false). -/
def timeoutFallbackReport : SuccessReport :=
  { overall_score := 0.5, tavily_coverage := 0.5,
    entities_found := 1, entities_checked := 1,
    claims_verified := 0, claims_checked := 1 }

/-- Which path the pipeline takes after the verification stage, with the data
that path receives. -/
inductive PathDecision
  | fast (res : FastResult)
  | full (verif : CalibVerif)
deriving DecidableEq, Repr

/-- The verification stage of `improved_detection` on the POSIX code path: a
successful call is gated for the fast path; a timeout is caught by the inner
handler and the neutral fallback dict is gated in the same way; any other
exception reaches the outer handler, which builds the error dict and falls
through to the full path (the gate is never consulted).  The stage is a total
function: no exception propagates to the caller. -/
def verificationStage : VerifOutcome → PathDecision
  | .ok raw => if fastPathGate raw then .fast (fastPathResult raw) else .full (.success raw)
  | .timeout =>
      if fastPathGate timeoutFallbackReport then .fast (fastPathResult timeoutFallbackReport)
      else .full (.success timeoutFallbackReport)
  | .exc msg => .full (.failed msg)

/-! String machinery shared by the temporal checker, the calibrator's year
scan and the rhetorical analyzers.  Python's `re` word boundary `\b` sits
between a word character (`[a-zA-Z0-9_]` for this codebase's ASCII inputs) and
a non-word character, so a pattern of the form "boundary, body with no
non-word characters, boundary" matches exactly the maximal word-character runs
whose text has the required shape. -/

/-- A word character in the sense of Python's `re` module (`\w`), for ASCII
text: letters, digits and the underscore. -/
def isWordChar (c : Char) : Bool := c.isAlphanum || c = '_'

/-- The maximal runs of word characters of a string, in order. -/
def wordRuns (s : String) : List String :=
  ((s.toList.splitOnP fun c => !isWordChar c).filter fun l => !l.isEmpty).map fun l => String.mk l

/-- Python's `str.lower()` on the ASCII text this codebase handles. -/
def lowerString (s : String) : String := String.mk (s.toList.map Char.toLower)

/-- Python's `str.split()` with no arguments: split on whitespace runs,
dropping empty pieces. -/
def pyWords (t : String) : List String :=
  ((t.toList.splitOnP fun c => c.isWhitespace).filter fun l => !l.isEmpty).map fun l => String.mk l

/-- Python's `str.split('.')` (empty pieces kept). -/
def splitOnDot (t : String) : List String :=
  (t.toList.splitOnP fun c => c = '.').map fun l => String.mk l

/-- Python's `str.strip()`: leading and trailing whitespace removed. -/
def pyStrip (s : String) : String :=
  String.mk (((s.toList.dropWhile Char.isWhitespace).reverse.dropWhile Char.isWhitespace).reverse)

/-- Whether the first list is a prefix of the second. -/
def isPrefixOfChars : List Char → List Char → Bool
  | [], _ => true
  | _ :: _, [] => false
  | a :: as, b :: bs => a == b && isPrefixOfChars as bs

/-- Whether the first list occurs as contiguous segment of the second. -/
def containsSubChars (n : List Char) : List Char → Bool
  | [] => n.isEmpty
  | c :: t => isPrefixOfChars n (c :: t) || containsSubChars n t

/-- Python's `needle in haystack` substring test. -/
def containsSub (needle haystack : String) : Bool :=
  containsSubChars needle.toList haystack.toList

/-- Helper for `countSubstr`: non-overlapping occurrences of `x :: xs` in the
list argument, scanning left to right, as Python's `str.count` does; the
final counter skips the tail of a match just counted. -/
def countOccs (x : Char) (xs : List Char) : List Char → ℕ → ℕ
  | [], _ => 0
  | _ :: t, Nat.succ k => countOccs x xs t k
  | c :: t, 0 =>
    if isPrefixOfChars (x :: xs) (c :: t) then 1 + countOccs x xs t xs.length
    else countOccs x xs t 0

/-- Python's `haystack.count(needle)` for a nonempty needle (every keyword
this codebase counts is nonempty; Python's empty-needle convention is not
needed and is mapped to 0). -/
def countSubstr (needle haystack : String) : ℕ :=
  match needle.toList with
  | [] => 0
  | x :: xs => countOccs x xs haystack.toList 0

/-- The numeric value of an all-digit character run (Python's `int(t)`). -/
def digitsToNat (l : List Char) : ℕ :=
  l.foldl (fun acc c => acc * 10 + (c.toNat - 48)) 0

/-! Temporal consistency checker
(`CrossModalChecker.check_temporal_consistency`, lines 411-473). -/

/-- The hardcoded reference year of the checker (line 426). -/
def currentYear : ℕ := 2025

/-- Month names of the checker's second time pattern. -/
def monthWords : List String :=
  ["january", "february", "march", "april", "may", "june", "july",
   "august", "september", "october", "november", "december"]

/-- Relative-time keywords of the checker's third time pattern. -/
def relativeTimeWords : List String :=
  ["today", "yesterday", "tomorrow", "now", "recently", "lately"]

/-- The `text_times` list (lines 420-423): matches of the three patterns on
the lowercased text, in pattern order.  The first pattern is a 4-digit run
between word boundaries; the other two are whole-word keyword alternations. -/
def extractedTimes (text : String) : List String :=
  let runs := wordRuns (lowerString text)
  (runs.filter fun w => w.length = 4 && w.toList.all Char.isDigit)
    ++ runs.filter (fun w => monthWords.contains w)
    ++ runs.filter (fun w => relativeTimeWords.contains w)

/-- The `year_matches` list (line 427): the all-digit length-4 extracted
times, as numbers. -/
def yearMatches (text : String) : List ℕ :=
  ((extractedTimes text).filter fun t => t.toList.all Char.isDigit && t.length = 4).map
    fun t => digitsToNat t.toList

/-- Years beyond `current_year + 1` (line 434). -/
def futureYears (text : String) : List ℕ :=
  (yearMatches text).filter fun y => decide (currentYear + 1 < y)

/-- Years before 1500 (line 441). -/
def veryOldYears (text : String) : List ℕ :=
  (yearMatches text).filter fun y => decide (y < 1500)

/-- Years in `[1500, 1800)` (line 442). -/
def oldYears (text : String) : List ℕ :=
  (yearMatches text).filter fun y => decide (1500 ≤ y ∧ y < 1800)

/-- Years in `[1800, current_year − 50)` (line 443). -/
def recentPastYears (text : String) : List ℕ :=
  (yearMatches text).filter fun y => decide (1800 ≤ y ∧ y < currentYear - 50)

/-- The modern-technology keywords (lines 446-447). -/
def modernKeywords : List String :=
  ["tower", "building", "constructed", "built", "completed",
   "technology", "internet", "computer", "phone", "car", "airplane"]

/-- Whether any modern keyword occurs in the lowercased text (line 448). -/
def hasModernContext (text : String) : Bool :=
  modernKeywords.any fun k => containsSub k (lowerString text)

/-- The score and flag of the temporal report; the `extracted_times` and
`temporal_issues` message strings are presentation-only and not modelled. -/
structure TemporalReport where
  temporal_consistency_score : ℚ
  is_temporally_consistent : Bool
deriving DecidableEq, Repr

/-- The temporal checker's scoring (lines 429-473): the score starts at 1.0;
future years cost a flat 0.4; then one branch of the old-year chain applies:
anachronism (year < 1500 with modern context) costs 0.9, a year < 1500 alone
costs 0.5, a year in `[1500, 1800)` with modern context costs 0.5, and
otherwise a nonempty `[1800, current_year − 50)` list costs a flat 0.1.  The
surfaced score is clamped at 0; the consistency flag compares the unclamped
score against the 0.3 threshold. -/
def checkTemporalConsistency (text : String) : TemporalReport :=
  let years := yearMatches text
  let score0 : ℚ := 1.0
  let score :=
    if years.isEmpty then score0
    else
      let score1 := if !(futureYears text).isEmpty then score0 - 0.4 else score0
      if !(veryOldYears text).isEmpty && hasModernContext text then score1 - 0.9
      else if !(veryOldYears text).isEmpty then score1 - 0.5
      else if !(oldYears text).isEmpty && hasModernContext text then score1 - 0.5
      else if !(recentPastYears text).isEmpty then score1 - 0.1
      else score1
  { temporal_consistency_score := max 0 score,
    is_temporally_consistent := decide (score > 0.3) }

/-! Full-path final-score calibrator
(`ImprovedDetection._generate_final_prediction`, lines 1316-1484). -/

/-- The two consistency numbers the calibrator reads from the
`consistency_check` dict. -/
structure ConsistencyInput where
  overall_consistency_score : ℚ
  temporal_consistency_score : ℚ
deriving DecidableEq, Repr

/-- The stub consistency dict installed when `use_consistency` is false
(line 799): overall score 1.0, temporal score 1.0. -/
def disabledConsistency : ConsistencyInput :=
  { overall_consistency_score := 1, temporal_consistency_score := 1 }

/-- Consistency adjustment (lines 1331-1343): `(1 − overall) * 0.25`, plus
`(1 − temporal) * 0.25` when `temporal < 0.5`, plus a flat `0.3` when
`temporal < 0.2`. -/
def consistencyAdjustment (c : ConsistencyInput) : ℚ :=
  (1 - c.overall_consistency_score) * 0.25
    + (if c.temporal_consistency_score < 0.5 then (1 - c.temporal_consistency_score) * 0.25 else 0)
    + (if c.temporal_consistency_score < 0.2 then 0.3 else 0)

/-- Rhetorical adjustment (line 1347): the sum of the loaded-language ratios
times 0.1 (an empty `rhetorical_features` dict contributes an empty list). -/
def rhetoricalAdjustment (loaded : List ℚ) : ℚ := loaded.sum * 0.1

/-- Verification adjustment (lines 1365-1366):
`((1 − score) * 0.20 + (1 − coverage) * 0.15) * weight`, zero when the
verification dict is empty. -/
def tavilyAdjustment (v : CalibVerif) (w : ℚ) : ℚ :=
  match calibFields v with
  | none => 0
  | some (s, c, _) => ((1 - s) * 0.20 + (1 - c) * 0.15) * w

/-- The claims ratio the calibrator computes (lines 1377-1379):
`claims_verified / total_claims if total_claims > 0 else 0`, where
`total_claims` is the dict lookup `get('total_claims', 1)` — a key that none
of the report dicts this pipeline builds contains, so the default 1 always
applies and the ratio degenerates to the raw `claims_verified` count. -/
def calibClaimsRatio (claimsVerified : ℚ) : ℚ :=
  let totalClaims : ℚ := 1
  if 0 < totalClaims then claimsVerified / totalClaims else 0

/-- Contradiction penalty (lines 1369-1392): `0.15 * weight` when
`score < 0.5 or coverage < 0.6`; then, only inside the branch
`coverage >= 0.8 and score >= 0.7` — a further `0.15 * weight` when the
claims ratio is below 0.7, and a further `0.15 * weight` when the text
contains a 4-digit year starting 18/19/20 and the claims ratio is below
0.9. -/
def contradictionPenalty (v : CalibVerif) (hasYear : Bool) (w : ℚ) : ℚ :=
  match calibFields v with
  | none => 0
  | some (s, c, cv) =>
    let p1 : ℚ := if s < 0.5 ∨ c < 0.6 then 0.15 * w else 0
    if 0.8 ≤ c ∧ 0.7 ≤ s then
      let cr := calibClaimsRatio cv
      let p2 : ℚ := if cr < 0.7 then 0.15 * w else 0
      let p3 : ℚ := if hasYear ∧ cr < 0.9 then 0.15 * w else 0
      p1 + p2 + p3
    else p1

/-- Verification boost (lines 1395-1402): −0.30 when `score >= 0.5`, else
−0.15 when `coverage >= 0.75 and score >= 0.4`, else 0. -/
def tavilyBoost (v : CalibVerif) : ℚ :=
  match calibFields v with
  | none => 0
  | some (s, c, _) =>
    if 0.5 ≤ s then -0.30
    else if 0.75 ≤ c ∧ 0.4 ≤ s then -0.15
    else 0

/-- Whether `re.findall` of the calibrator's year pattern on the lowercased
text is nonempty (line 1389): the pattern matches a word-boundary-delimited
run of exactly four digits whose first two are 18, 19 or 20. -/
def hasCalibYear (text : String) : Bool :=
  (wordRuns (lowerString text)).any fun r =>
    r.length = 4 && r.toList.all Char.isDigit &&
      (decide (r.toList.take 2 = ['1', '8']) || decide (r.toList.take 2 = ['1', '9'])
        || decide (r.toList.take 2 = ['2', '0']))

/-- The final fake probability (line 1407): base plus the five additive terms,
clamped to `[0, 1]`. -/
def finalFakeProb (base : ℚ) (cons : ConsistencyInput) (loaded : List ℚ)
    (v : CalibVerif) (hasYear : Bool) (w : ℚ) : ℚ :=
  min 1 (max 0 (base + consistencyAdjustment cons + rhetoricalAdjustment loaded
    + tavilyAdjustment v w + contradictionPenalty v hasYear w + tavilyBoost v))

/-- The verdict banding (lines 1469-1476): `fake` at or above 0.6, `real` at
or below 0.4, `misleading` strictly between. -/
def predictionLabel (p : ℚ) : String :=
  if p ≥ 0.6 then "fake" else if p ≤ 0.4 then "real" else "misleading"

/-- The rational fields of the calibrator's `final_prediction` (its
real-valued confidence is `finalConfidence` below; the `key_factors` tag list
and detail blocks are presentation-only). -/
structure FinalPrediction where
  prediction : String
  fake_probability : ℚ
  base_fusion_score : ℚ
  consistency_adjustment : ℚ
  rhetorical_adjustment : ℚ
  tavily_adjustment : ℚ
  contradiction_penalty : ℚ
  tavily_boost : ℚ
  threshold_used : ℚ
deriving DecidableEq, Repr

/-- The calibrator `_generate_final_prediction`, restricted to its rational
outputs. -/
def generateFinalPrediction (base : ℚ) (cons : ConsistencyInput) (loaded : List ℚ)
    (v : CalibVerif) (w threshold : ℚ) (text : String) : FinalPrediction :=
  let hy := hasCalibYear text
  { prediction := predictionLabel (finalFakeProb base cons loaded v hy w)
    fake_probability := finalFakeProb base cons loaded v hy w
    base_fusion_score := base
    consistency_adjustment := consistencyAdjustment cons
    rhetorical_adjustment := rhetoricalAdjustment loaded
    tavily_adjustment := tavilyAdjustment v w
    contradiction_penalty := contradictionPenalty v hy w
    tavily_boost := tavilyBoost v
    threshold_used := threshold }

/-- The `total_adjustment` magnitude sum (line 1413). -/
def totalAdjustment (cons : ConsistencyInput) (loaded : List ℚ) (v : CalibVerif)
    (hasYear : Bool) (w : ℚ) : ℚ :=
  |consistencyAdjustment cons| + |rhetoricalAdjustment loaded| + |tavilyAdjustment v w|
    + |contradictionPenalty v hasYear w| + |tavilyBoost v|

/-- The calibrator's confidence (lines 1408-1416): `(|final − 0.5| * 2) ** 1.5`,
plus 0.1 (capped at 1) when the total adjustment magnitude exceeds 0.1, and a
final clamp to `[0, 1]`. -/
noncomputable def finalConfidence (base : ℚ) (cons : ConsistencyInput) (loaded : List ℚ)
    (v : CalibVerif) (w : ℚ) (text : String) : ℝ :=
  let hy := hasCalibYear text
  let p : ℚ := finalFakeProb base cons loaded v hy w
  let c : ℝ := pow15 (|(p : ℝ) - 0.5| * 2)
  let c : ℝ := if totalAdjustment cons loaded v hy w > 0.1 then min 1 (c + 0.1) else c
  max 0 (min 1 c)

/-! Weighted heuristic fusion (`DetectorFusion._simple_weighted_fusion`,
lines 282-403), used whenever no trained fusion model is available — which is
always the case in this pipeline, since nothing ever calls
`train_fusion_model`. -/

/-- Feature normalization (lines 303-312): a value in `(1, 10)` is divided by
10 (and capped at 1); any value still outside `[0, 1]` is reset to 0.5. -/
def normalizeFeature (v : ℚ) : ℚ :=
  let v1 := if 1 < v ∧ v < 10 then min (v / 10) 1 else v
  if 0 ≤ v1 ∧ v1 ≤ 1 then v1 else 0.5

/-- The fixed weight table (lines 321-334), dominated by the generative
detector's sensitivity at index 2. -/
def featureWeightsRaw : List ℚ :=
  [0.05, 0.04, 0.80, 0.05, 0.02, 0.02, 0.02, 0.02, 0.02, 0.02, 0.02, 0.02]

/-- The weight table rescaled to sum to 1 (line 337). -/
def featureWeights : List ℚ :=
  featureWeightsRaw.map fun w => w / featureWeightsRaw.sum

/-- The AI-generation bonus tier of a raw (pre-normalization, 0-10 scale)
sensitivity value (lines 376-387). -/
def aiBonus (v : ℚ) : ℚ :=
  if v > 5.0 then 0.20
  else if v > 4.2 then 0.12
  else if v > 3.8 then 0.08
  else if v > 3.5 then 0.04
  else 0

/-- The `ai_detected` flag set alongside the bonus tiers (lines 371-387): set
in the two top tiers, explicitly cleared in the two lower ones. -/
def aiDetectedFlag (v : ℚ) : Bool :=
  if v > 5.0 then true
  else if v > 4.2 then true
  else if v > 3.8 then false
  else if v > 3.5 then false
  else false

/-- The heuristic's output record (lines 395-403); the echoed
`detectgpt_is_generated_value` and `num_features_used` diagnostics are not
modelled. -/
structure FusionResult where
  prediction : String
  fake_probability : ℚ
  confidence : ℚ
  ai_generated_detected : Bool
deriving DecidableEq, Repr

/-- The weighted heuristic (lines 282-403): normalize the features, take the
weighted sum of the first twelve against the rescaled weight table (the
feature vector the extractor builds always has at least its 18 rhetorical
entries, so the slice `[:12]` is full), add the AI-generation bonus of the raw
sensitivity read from the baseline results (capping at 1 when a bonus
applies), and clamp to `[0, 1]`. -/
def simpleWeightedFusion (features : List ℚ) (sensitivity : ℚ) : FusionResult :=
  let normalized := features.map normalizeFeature
  let weighted0 := (List.zipWith (fun a b => a * b) (normalized.take featureWeights.length) featureWeights).sum
  let bonus := aiBonus sensitivity
  let weighted1 := if bonus > 0 then min 1 (weighted0 + bonus) else weighted0
  let weighted := max 0 (min 1 weighted1)
  { prediction := if weighted > 0.5 then "fake" else "real"
    fake_probability := weighted
    confidence := |weighted - 0.5| * 2
    ai_generated_detected := aiDetectedFlag sensitivity }

/-! Rhetorical feature extractor (`RhetoricalAnalyzer`, lines 44-150).  The
regex engine, the `textstat` readability functions and the spaCy pipeline are
external collaborators; they are passed in as oracle parameters, while the
per-word normalizations and their divisions — the analyzer's own arithmetic —
are modelled exactly. -/

/-- The emotional-keyword table (lines 57-63). -/
def emotionalWords : List (String × List String) :=
  [("positive", ["amazing", "incredible", "fantastic", "wonderful", "brilliant", "outstanding"]),
   ("negative", ["terrible", "horrible", "awful", "disgusting", "shocking", "appalling"]),
   ("fear", ["fear", "terror", "panic", "dread", "anxiety", "worry"]),
   ("anger", ["fury", "rage", "outrage", "furious", "angry", "mad"]),
   ("exaggeration", ["extremely", "incredibly", "absolutely", "completely", "totally", "utterly"])]

/-- `analyze_emotional_language` (lines 54-72): per category, the summed
substring counts over the lowercased text divided by `len(text.split())`.
When the text has no words the division raises `ZeroDivisionError`, modelled
as `Except.error`. -/
def analyzeEmotionalLanguage (text : String) : Except String (List (String × ℚ)) :=
  let lower := lowerString text
  let n := (pyWords text).length
  if n = 0 then .error "ZeroDivisionError: division by zero"
  else .ok (emotionalWords.map fun p =>
    (p.1, (((p.2.map fun w => countSubstr w lower).sum : ℚ) / (n : ℚ))))

/-- The loaded-language regex table (lines 76-82), kept as the raw pattern
source strings handed to the external regex engine. -/
def loadedPatterns : List (String × List String) :=
  [("conspiracy", [r"\b(conspiracy|plot|cover.?up|secret|hidden)\b", r"\b(they|them)\b.*\b(hide|conceal)\b"]),
   ("urgency", [r"\b(urgent|immediate|breaking|shocking|alarming)\b", r"\b(now|immediately|asap)\b"]),
   ("authority", [r"\b(experts?|officials?|sources?)\b.*\b(say|claim|reveal)\b"]),
   ("vague_sources", [r"\b(according to|sources say|reportedly|allegedly)\b"]),
   ("emotional_triggers", [r"\b(devastating|catastrophic|unprecedented|outrageous)\b"])]

/-- `detect_loaded_language` (lines 74-93): per pattern type, the summed
`re.findall` match counts (delegated to the oracle `findallCount`) over the
lowercased text divided by `len(text.split())`; division by zero on wordless
text, as above. -/
def detectLoadedLanguage (findallCount : String → String → ℕ) (text : String) :
    Except String (List (String × ℚ)) :=
  let lower := lowerString text
  let n := (pyWords text).length
  if n = 0 then .error "ZeroDivisionError: division by zero"
  else .ok (loadedPatterns.map fun p =>
    (p.1, (((p.2.map fun pat => findallCount pat lower).sum : ℚ) / (n : ℚ))))

/-- The readability record (lines 98-104). -/
structure Readability where
  flesch_reading_ease : ℚ
  flesch_kincaid_grade : ℚ
  avg_sentence_length : ℚ
  avg_word_length : ℚ
  complex_word_ratio : ℚ
deriving DecidableEq, Repr

/-- The fixed neutral fallback readability values (lines 106-112). -/
def readabilityDefaults : Readability :=
  { flesch_reading_ease := 50, flesch_kincaid_grade := 10,
    avg_sentence_length := 15, avg_word_length := 5, complex_word_ratio := 0.3 }

/-- Mean of a rational list.  `np.mean` of an empty list is NaN — a float
value, not an exception; no claim depends on that value and it is mapped
to 0 here. -/
def pyMean (l : List ℚ) : ℚ := if l.length = 0 then 0 else l.sum / (l.length : ℚ)

/-- The body of `analyze_readability`'s `try` block (lines 98-104): the two
`textstat` calls are an oracle that may fail; the sentence/word statistics are
computed exactly, with `complex_word_ratio`'s division by `len(text.split())`
raising on wordless text. -/
def readabilityTry (textstatOracle : String → Except String (ℚ × ℚ)) (t : String) :
    Except String Readability :=
  match textstatOracle t with
  | .error e => .error e
  | .ok (fre, fkg) =>
    let ws := pyWords t
    if ws.length = 0 then .error "ZeroDivisionError: division by zero"
    else
      let sentLens := ((splitOnDot t).filter fun s => !(pyStrip s).toList.isEmpty).map
        fun s => ((pyWords s).length : ℚ)
      .ok { flesch_reading_ease := fre, flesch_kincaid_grade := fkg,
            avg_sentence_length := pyMean sentLens,
            avg_word_length := pyMean (ws.map fun w => (w.length : ℚ)),
            complex_word_ratio := ((ws.filter fun w => 6 < w.length).length : ℚ) / (ws.length : ℚ) }

/-- `analyze_readability` (lines 95-112): the bare `except:` turns every
failure of the `try` block into the fixed neutral defaults, so this
sub-analysis never raises. -/
def analyzeReadability (textstatOracle : String → Except String (ℚ × ℚ)) (t : String) :
    Readability :=
  match readabilityTry textstatOracle t with
  | .ok r => r
  | .error _ => readabilityDefaults

/-- What `detect_linguistic_patterns` reads from a spaCy document: entity
labels, POS tags, sentence counts and the verb counts of the passive-voice
ratio. -/
structure NlpDoc where
  entityLabels : List String
  posTags : List String
  sentenceCount : ℕ
  complexSentenceCount : ℕ
  vbnTokenCount : ℕ
  verbTokenCount : ℕ
deriving DecidableEq, Repr

/-- `detect_linguistic_patterns` (lines 114-141): with no spaCy model the
analyzer returns an empty mapping; with one, `pronoun_ratio` divides by the
POS-tag count and `complex_sentence_ratio` divides by the sentence count (the
guard `if doc.sents` is a generator and always truthy), so an empty document
raises; `entity_diversity` and `passive_voice_ratio` are guarded. -/
def detectLinguisticPatterns (nlp : Option (String → NlpDoc)) (text : String) :
    Except String (List (String × ℚ)) :=
  match nlp with
  | none => .ok []
  | some f =>
    let d := f text
    if d.posTags.length = 0 then .error "ZeroDivisionError: division by zero"
    else if d.sentenceCount = 0 then .error "ZeroDivisionError: division by zero"
    else .ok
      [("entity_diversity",
        if d.entityLabels.length = 0 then 0
        else ((d.entityLabels.dedup.length : ℚ) / (d.entityLabels.length : ℚ))),
       ("pronoun_ratio", ((d.posTags.count "PRON" : ℚ) / (d.posTags.length : ℚ))),
       ("adjective_ratio", ((d.posTags.count "ADJ" : ℚ) / (d.posTags.length : ℚ))),
       ("complex_sentence_ratio", ((d.complexSentenceCount : ℚ) / (d.sentenceCount : ℚ))),
       ("passive_voice_ratio",
        if d.verbTokenCount = 0 then 0
        else ((d.vbnTokenCount : ℚ) / (d.verbTokenCount : ℚ)))]

/-- The combined rhetorical feature record (lines 143-150). -/
structure RhetoricalFeatures where
  emotional_language : List (String × ℚ)
  loaded_language : List (String × ℚ)
  readability : Readability
  linguistic_patterns : List (String × ℚ)
deriving DecidableEq, Repr

/-- `analyze_text` (lines 143-150): the four sub-analyses in order; the first
raised exception propagates. -/
def analyzeText (findallCount : String → String → ℕ)
    (textstatOracle : String → Except String (ℚ × ℚ))
    (nlp : Option (String → NlpDoc)) (text : String) : Except String RhetoricalFeatures := do
  let emo ← analyzeEmotionalLanguage text
  let loaded ← detectLoadedLanguage findallCount text
  let read := analyzeReadability textstatOracle text
  let ling ← detectLinguisticPatterns nlp text
  pure { emotional_language := emo, loaded_language := loaded,
         readability := read, linguistic_patterns := ling }



/-! Concrete reports used by the spec's worked examples. -/

/-- The spec's fast-path trigger example: score 0.80, coverage 0.70, claims
3/4, entities 3/3. -/
def sampleReport : SuccessReport :=
  { overall_score := 0.80, tavily_coverage := 0.70,
    entities_found := 3, entities_checked := 3,
    claims_verified := 3, claims_checked := 4 }

/-- The spec's fast-path non-trigger example: as `sampleReport` but with
`claims_checked = 1`. -/
def sampleReportOneClaim : SuccessReport :=
  { overall_score := 0.80, tavily_coverage := 0.70,
    entities_found := 3, entities_checked := 3,
    claims_verified := 3, claims_checked := 1 }

/-- Report used to refute the independence of the year-based contradiction
penalty: score 0.6, coverage 0.7, no verified claim out of four. -/
def midCoverageReport : SuccessReport :=
  { overall_score := 0.6, tavily_coverage := 0.7,
    entities_found := 2, entities_checked := 2,
    claims_verified := 0, claims_checked := 4 }

lemma sampleReport_gate : fastPathGate sampleReport = true := by
  simp [fastPathGate, sampleReport, gateClaimsRatio, gateEntitiesRatio]
  norm_num

lemma sampleReportOneClaim_gate : fastPathGate sampleReportOneClaim = false := by
  simp [fastPathGate, sampleReportOneClaim, gateClaimsRatio, gateEntitiesRatio]

/-- Claim C1: with verification enabled and a report obtained, the fast path
fires iff all six gate thresholds hold of the report (ratios taken as 0 when
the corresponding checked count is 0); concretely the report with score 0.80,
coverage 0.70, claims 3/4, entities 3/3 fires, while the same report with
`claims_checked = 1` does not and the pipeline proceeds to the full path. -/
theorem fastPathGate_iff_thresholds :
    (∀ R : SuccessReport, fastPathGate R = true ↔
      (R.overall_score ≥ 0.75 ∧ R.tavily_coverage ≥ 0.65 ∧
        gateClaimsRatio R ≥ 0.75 ∧ gateEntitiesRatio R ≥ 0.70 ∧
        R.claims_checked ≥ 2 ∧ R.entities_checked ≥ 2))
    ∧ fastPathGate sampleReport = true
    ∧ fastPathGate sampleReportOneClaim = false
    ∧ verificationStage (.ok sampleReport) = .fast (fastPathResult sampleReport)
    ∧ verificationStage (.ok sampleReportOneClaim) = .full (.success sampleReportOneClaim) := by
  refine ⟨fun R => by simp [fastPathGate], sampleReport_gate, sampleReportOneClaim_gate, ?_, ?_⟩
  · simp [verificationStage, sampleReport_gate]
  · simp [verificationStage, sampleReportOneClaim_gate]


/-- Clamping to the unit interval is the identity on values already inside it. -/
lemma clamp_eq_self {x : ℚ} (h0 : 0 ≤ x) (h1 : x ≤ 1) : min 1 (max 0 x) = x := by
  rw [max_eq_right h0, min_eq_right h1]

/-- With the disabled-toggle inputs every additive term vanishes and the
calibrator only clamps the base score. -/
lemma finalFakeProb_neutral (b : ℚ) (hy : Bool) (w : ℚ) :
    finalFakeProb b disabledConsistency [] .empty hy w = min 1 (max 0 b) := by
  simp [finalFakeProb, consistencyAdjustment, disabledConsistency, rhetoricalAdjustment,
    tavilyAdjustment, contradictionPenalty, tavilyBoost, calibFields]
  norm_num

/-- The verdict banding of `predictionLabel`, stated with inclusive bounds. -/
lemma predictionLabel_spec (p : ℚ) :
    (predictionLabel p = "fake" ↔ 0.6 ≤ p) ∧
    (predictionLabel p = "real" ↔ p ≤ 0.4) ∧
    (predictionLabel p = "misleading" ↔ 0.4 < p ∧ p < 0.6) := by
  unfold predictionLabel
  by_cases h1 : p ≥ 0.6
  · rw [if_pos h1]
    refine ⟨⟨fun _ => h1, fun _ => rfl⟩, ⟨fun hh => absurd hh (by decide), fun hh => by
      exfalso; rw [ge_iff_le] at h1; norm_num at h1 hh; linarith⟩,
      ⟨fun hh => absurd hh (by decide), fun hh => by
        exfalso; rw [ge_iff_le] at h1; norm_num at h1 hh; linarith [hh.2]⟩⟩
  · rw [if_neg h1]
    rw [ge_iff_le, not_le] at h1
    by_cases h2 : p ≤ 0.4
    · rw [if_pos h2]
      refine ⟨⟨fun hh => absurd hh (by decide), fun hh => by exfalso; norm_num at *; linarith⟩,
        ⟨fun _ => h2, fun _ => rfl⟩,
        ⟨fun hh => absurd hh (by decide), fun hh => by exfalso; norm_num at *; linarith [hh.1]⟩⟩
    · rw [if_neg h2]
      rw [not_le] at h2
      exact ⟨⟨fun hh => absurd hh (by decide), fun hh => by exfalso; norm_num at *; linarith⟩,
        ⟨fun hh => absurd hh (by decide), fun hh => by exfalso; norm_num at *; linarith⟩,
        ⟨fun _ => ⟨h2, h1⟩, fun _ => rfl⟩⟩

/-- On the neutral disabled-toggle inputs the surfaced verdict is the band of
the base score itself. -/
lemma neutralInputLabel (b : ℚ) (h0 : 0 ≤ b) (h1 : b ≤ 1) :
    (generateFinalPrediction b disabledConsistency [] .empty 1 0.5 "t").prediction =
      predictionLabel b := by
  simp only [generateFinalPrediction, finalFakeProb_neutral, clamp_eq_self h0 h1]


/-- Claim C2: the full-path verdict bands are boundary-inclusive: `fake` iff
the final probability is at least 0.6, `real` iff it is at most 0.4,
`misleading` iff it lies strictly between; the probe values 0.39, 0.40, 0.59,
0.60, 0.61 fed through the calibrator as neutral base scores give the verdicts
real, real, misleading, fake, fake. -/
theorem predictionLabel_bands :
    (∀ base cons loaded v w th text,
      ((generateFinalPrediction base cons loaded v w th text).prediction = "fake" ↔
        0.6 ≤ (generateFinalPrediction base cons loaded v w th text).fake_probability) ∧
      ((generateFinalPrediction base cons loaded v w th text).prediction = "real" ↔
        (generateFinalPrediction base cons loaded v w th text).fake_probability ≤ 0.4) ∧
      ((generateFinalPrediction base cons loaded v w th text).prediction = "misleading" ↔
        0.4 < (generateFinalPrediction base cons loaded v w th text).fake_probability ∧
          (generateFinalPrediction base cons loaded v w th text).fake_probability < 0.6))
    ∧ (generateFinalPrediction 0.39 disabledConsistency [] .empty 1 0.5 "t").prediction = "real"
    ∧ (generateFinalPrediction 0.40 disabledConsistency [] .empty 1 0.5 "t").prediction = "real"
    ∧ (generateFinalPrediction 0.59 disabledConsistency [] .empty 1 0.5 "t").prediction = "misleading"
    ∧ (generateFinalPrediction 0.60 disabledConsistency [] .empty 1 0.5 "t").prediction = "fake"
    ∧ (generateFinalPrediction 0.61 disabledConsistency [] .empty 1 0.5 "t").prediction = "fake" := by
  constructor
  · intro base cons loaded v w th text
    simpa only [generateFinalPrediction] using
      predictionLabel_spec (finalFakeProb base cons loaded v (hasCalibYear text) w)
  · refine ⟨?_, ?_, ?_, ?_, ?_⟩ <;>
      · rw [neutralInputLabel _ (by norm_num) (by norm_num)]
        norm_num [predictionLabel]


lemma fastPathGate_score (R : SuccessReport) (h : fastPathGate R = true) :
    (0.75 : ℚ) ≤ R.overall_score := by
  simp only [fastPathGate, decide_eq_true_eq] at h
  exact h.1

lemma fastFakeProb_le (R : SuccessReport) (h : fastPathGate R = true) :
    fastFakeProb R.overall_score ≤ 0.15 := by
  have hs := fastPathGate_score R h
  have hm : 0 ≤ (R.overall_score - 0.75) * 0.3 :=
    mul_nonneg (by linarith) (by norm_num)
  exact max_le (by norm_num) (by linarith)

/-- Claim C3: on the full path the surfaced final fake probability and
confidence are clamped into the unit interval for every input, and on the
fast path (whenever the gate fires) the abbreviated result's fake probability
and confidence also lie in the unit interval. -/
theorem surfaced_values_unit_interval :
    (∀ base cons loaded v (w th : ℚ) text,
      0 ≤ (generateFinalPrediction base cons loaded v w th text).fake_probability ∧
      (generateFinalPrediction base cons loaded v w th text).fake_probability ≤ 1 ∧
      0 ≤ finalConfidence base cons loaded v w text ∧
      finalConfidence base cons loaded v w text ≤ 1)
    ∧ (∀ R : SuccessReport, fastPathGate R = true →
      0 ≤ (fastPathResult R).fake_probability ∧ (fastPathResult R).fake_probability ≤ 1 ∧
      0 ≤ fastConfidence R.overall_score ∧ fastConfidence R.overall_score ≤ 1) := by
  constructor
  · intro base cons loaded v w th text
    refine ⟨?_, ?_, ?_, ?_⟩
    · exact le_min (by norm_num) (le_max_left _ _)
    · exact min_le_left _ _
    · exact le_max_left _ _
    · exact max_le (by norm_num) (min_le_left _ _)
  · intro R h
    refine ⟨le_max_left _ _, le_trans (fastFakeProb_le R h) (by norm_num), ?_, ?_⟩
    · exact le_max_left _ _
    · exact max_le (by norm_num) (min_le_left _ _)

/-- Witness for C3: the unit-interval bounds evaluated on the concrete
fast-path trigger report. -/
theorem surfaced_values_unit_interval_witness :
    0 ≤ (fastPathResult sampleReport).fake_probability ∧
    (fastPathResult sampleReport).fake_probability ≤ 1 ∧
    0 ≤ fastConfidence sampleReport.overall_score ∧
    fastConfidence sampleReport.overall_score ≤ 1 :=
  surfaced_values_unit_interval.2 sampleReport sampleReport_gate

/-- Claim C4: whenever the fast path fires on a report with score `s`, the
abbreviated result predicts `real` with fake probability
`max 0 (0.15 − (s − 0.75) * 0.3)` (hence at most 0.15) and confidence
`clamp ((|p − 0.5| * 2) ** 1.5 + (0.15 if s > 0.75 else 0), 0, 1)`; the
concrete trigger report (score 0.80, coverage 0.70, claims 3/4, entities 3/3)
fires and yields `real` with fake probability at most 0.15. -/
theorem fast_path_result_formulas :
    (∀ R : SuccessReport, fastPathGate R = true →
      (fastPathResult R).prediction = "real" ∧
      (fastPathResult R).fake_probability = max 0 (0.15 - (R.overall_score - 0.75) * 0.3) ∧
      (fastPathResult R).fake_probability ≤ 0.15 ∧
      fastConfidence R.overall_score =
        max 0 (min 1 (pow15 (|((fastPathResult R).fake_probability : ℝ) - 0.5| * 2)
          + (if R.overall_score > 0.75 then (0.15 : ℝ) else 0))))
    ∧ fastPathGate sampleReport = true := by
  refine ⟨?_, sampleReport_gate⟩
  intro R h
  refine ⟨rfl, rfl, fastFakeProb_le R h, ?_⟩
  by_cases hc : R.overall_score > 0.75
  · simp only [fastConfidence, fastPathResult, if_pos hc]
    rw [← min_assoc, min_self]
  · simp only [fastConfidence, fastPathResult, if_neg hc, add_zero]

/-- Witness for C4: the formulas applied at the concrete trigger report. -/
theorem fast_path_result_formulas_witness :
    (fastPathResult sampleReport).prediction = "real" ∧
    (fastPathResult sampleReport).fake_probability ≤ 0.15 :=
  ⟨(fast_path_result_formulas.1 sampleReport sampleReport_gate).1,
   (fast_path_result_formulas.1 sampleReport sampleReport_gate).2.2.1⟩

lemma simpleWeightedFusion_mem (features : List ℚ) (s : ℚ) :
    0 ≤ (simpleWeightedFusion features s).fake_probability ∧
    (simpleWeightedFusion features s).fake_probability ≤ 1 := by
  simp only [simpleWeightedFusion]
  exact ⟨le_max_left _ _, max_le (by norm_num) (min_le_left _ _)⟩

/-- Claim C5: with all three toggles disabled the calibrator receives the
neutral consistency stub, an empty loaded-language mapping and an empty
verification dict; every additive term is zero and the surfaced final fake
probability equals the base fusion score exactly (the clamp is the identity
because the heuristic's output is already clamped). -/
theorem neutral_collapse :
    ∀ (features : List ℚ) (sensitivity w th : ℚ) (text : String),
      (generateFinalPrediction (simpleWeightedFusion features sensitivity).fake_probability
        disabledConsistency [] .empty w th text).fake_probability =
        (simpleWeightedFusion features sensitivity).fake_probability ∧
      consistencyAdjustment disabledConsistency = 0 ∧
      rhetoricalAdjustment [] = 0 ∧
      tavilyAdjustment .empty w = 0 ∧
      contradictionPenalty .empty (hasCalibYear text) w = 0 ∧
      tavilyBoost .empty = 0 := by
  intro features sensitivity w th text
  refine ⟨?_, ?_, ?_, ?_, ?_, ?_⟩
  · simp only [generateFinalPrediction, finalFakeProb_neutral]
    exact clamp_eq_self (simpleWeightedFusion_mem features sensitivity).1
      (simpleWeightedFusion_mem features sensitivity).2
  · simp [consistencyAdjustment, disabledConsistency]
    norm_num
  · simp [rhetoricalAdjustment]
  · simp [tavilyAdjustment, calibFields]
  · simp [contradictionPenalty, calibFields]
  · simp [tavilyBoost, calibFields]

/-- Counterexample to C6: on a report with score 0.6 and coverage 0.7
(so neither the low-verification branch nor the `coverage ≥ 0.8 and
score ≥ 0.7` branch applies), with a text containing the year 1999 and a
claims ratio of 0 (below 0.9 under either reading of the ratio), the
contradiction penalty is 0 — the year-based `+0.15` does not apply outside
the high-coverage branch. -/
theorem year_penalty_not_independent_cex :
    hasCalibYear "report from 1999" = true ∧
    calibClaimsRatio ((midCoverageReport.claims_verified : ℕ) : ℚ) < 0.9 ∧
    gateClaimsRatio midCoverageReport < 0.9 ∧
    ¬ (midCoverageReport.overall_score < 0.5 ∨ midCoverageReport.tavily_coverage < 0.6) ∧
    contradictionPenalty (.success midCoverageReport) (hasCalibYear "report from 1999") 1 = 0 := by
  have hy : hasCalibYear "report from 1999" = true := by decide
  refine ⟨hy, ?_, ?_, ?_, ?_⟩
  · simp [calibClaimsRatio, midCoverageReport]
    norm_num
  · simp [gateClaimsRatio, midCoverageReport]
    norm_num
  · simp [midCoverageReport]
    norm_num
  · rw [hy]
    simp only [contradictionPenalty, calibFields, midCoverageReport]
    norm_num

/-- Amended C6: the first penalty fires whenever `score < 0.5 or
coverage < 0.6`; the claims-ratio penalty and the year-based penalty are both
nested inside the branch `coverage ≥ 0.8 and score ≥ 0.7` (so neither applies
outside it, and neither can stack with the first); inside the branch the two
stack with each other, with the ratio taken as `claims_verified` divided by
the report's `total_claims` lookup, which defaults to 1 because the pipeline
never sets that key.  The concrete report with coverage 0.9, score 0.8, no
verified claim and a year in the text accumulates both nested penalties. -/
theorem contradictionPenalty_decomposition :
    (∀ (R : SuccessReport) (hasYear : Bool) (w : ℚ),
      contradictionPenalty (.success R) hasYear w =
        (if R.overall_score < 0.5 ∨ R.tavily_coverage < 0.6 then 0.15 * w else 0)
        + (if 0.8 ≤ R.tavily_coverage ∧ 0.7 ≤ R.overall_score then
            (if calibClaimsRatio (R.claims_verified : ℚ) < 0.7 then 0.15 * w else 0)
            + (if hasYear ∧ calibClaimsRatio (R.claims_verified : ℚ) < 0.9 then 0.15 * w else 0)
          else 0))
    ∧ contradictionPenalty
        (.success { overall_score := 0.8, tavily_coverage := 0.9,
                    entities_found := 2, entities_checked := 2,
                    claims_verified := 0, claims_checked := 4 }) true 1 = 0.30 := by
  constructor
  · intro R hasYear w
    simp only [contradictionPenalty, calibFields]
    by_cases h : 0.8 ≤ R.tavily_coverage ∧ 0.7 ≤ R.overall_score
    · rw [if_pos h, if_pos h, add_assoc]
    · rw [if_neg h, if_neg h, add_zero]
  · simp only [contradictionPenalty, calibFields, calibClaimsRatio]
    norm_num

lemma timeoutFallback_gate : fastPathGate timeoutFallbackReport = false := by
  simp only [fastPathGate, decide_eq_false_iff_not]
  intro hcon
  have h := hcon.1
  rw [show timeoutFallbackReport.overall_score = 0.5 from rfl] at h
  norm_num at h

/-- Counterexample to C7: a verification timeout does not produce the
`overall_score = 0` error report — the `TimeoutError` is caught by the inner
handler and the pipeline builds the neutral fallback report with
`overall_score = 0.5`, `coverage = 0.5` and no error marker, gated (and
rejected) like any success report. -/
theorem timeout_report_not_error_cex :
    verificationStage .timeout = .full (.success timeoutFallbackReport) ∧
    timeoutFallbackReport.overall_score = 0.5 ∧
    timeoutFallbackReport.tavily_coverage = 0.5 ∧
    ¬ timeoutFallbackReport.overall_score = 0 := by
  refine ⟨?_, rfl, rfl, ?_⟩
  · simp [verificationStage, timeoutFallback_gate]
  · rw [show timeoutFallbackReport.overall_score = 0.5 from rfl]
    norm_num

/-- Amended C7: no exception or timeout of the verification call propagates —
the stage is total.  A non-timeout exception yields the error report
(score 0, coverage 0, error message kept) and the pipeline falls through to
the full path without consulting the gate; a timeout is caught internally and
yields the neutral fallback report (score 0.5, coverage 0.5, claims 0/1,
entities 1/1, no error), on which the gate does not fire, so the full
pipeline runs in both cases. -/
theorem verification_failure_handling :
    (∀ msg, verificationStage (.exc msg) = .full (.failed msg) ∧
      calibFields (.failed msg) = some (0, 0, 0))
    ∧ verificationStage .timeout = .full (.success timeoutFallbackReport)
    ∧ timeoutFallbackReport.overall_score = 0.5
    ∧ timeoutFallbackReport.tavily_coverage = 0.5
    ∧ timeoutFallbackReport.claims_verified = 0
    ∧ timeoutFallbackReport.claims_checked = 1
    ∧ timeoutFallbackReport.entities_found = 1
    ∧ timeoutFallbackReport.entities_checked = 1
    ∧ fastPathGate timeoutFallbackReport = false := by
  refine ⟨fun msg => ⟨rfl, rfl⟩, ?_, rfl, rfl, rfl, rfl, rfl, rfl, timeoutFallback_gate⟩
  simp [verificationStage, timeoutFallback_gate]


/-- Counterexample to C8: on the empty string the per-word normalization of
the emotional-language sub-analysis divides by zero and the error propagates
through `analyze_text` (here with trivially benign regex/readability/NLP
collaborators), rather than degrading to neutral values. -/
theorem emotional_empty_text_cex :
    (pyWords "").length = 0 ∧
    analyzeEmotionalLanguage "" = .error "ZeroDivisionError: division by zero" ∧
    (analyzeText (fun _ _ => 0) (fun _ => .ok (50, 10)) none "").isOk = false := by
  refine ⟨by decide, ?_, by decide⟩
  rfl

/-- Amended C8: the rhetorical extractor raises no error on any text with at
least one whitespace-delimited word: the emotional-language and
loaded-language sub-analyses succeed (for any regex collaborator), the
readability sub-analysis is total — any failure of its inner computation
falls back to the fixed neutral constants — and the linguistic-pattern
sub-analysis returns the empty mapping when the NLP collaborator is absent.
On wordless text (such as the empty string) the first two sub-analyses
divide by zero. -/
theorem rhetorical_sub_analyses_degrade :
    ∀ (text : String) (findallCount : String → String → ℕ)
      (oracle : String → Except String (ℚ × ℚ)) (e : String),
      0 < (pyWords text).length →
      (analyzeEmotionalLanguage text).isOk = true ∧
      (detectLoadedLanguage findallCount text).isOk = true ∧
      (readabilityTry oracle text = .error e → analyzeReadability oracle text = readabilityDefaults) ∧
      detectLinguisticPatterns none text = .ok [] := by
  intro text findallCount oracle e h
  have hne : (pyWords text).length ≠ 0 := Nat.pos_iff_ne_zero.mp h
  refine ⟨?_, ?_, ?_, rfl⟩
  · simp only [analyzeEmotionalLanguage]
    rw [if_neg hne]
    rfl
  · simp only [detectLoadedLanguage]
    rw [if_neg hne]
    rfl
  · intro he
    simp [analyzeReadability, he]

/-- Witness for the amended C8 at a concrete two-word text with concrete
collaborators. -/
theorem rhetorical_sub_analyses_degrade_witness :
    (analyzeEmotionalLanguage "hello world").isOk = true ∧
    (detectLoadedLanguage (fun _ _ => 0) "hello world").isOk = true ∧
    (readabilityTry (fun _ => .error "err") "hello world" = .error "err" →
      analyzeReadability (fun _ => .error "err") "hello world" = readabilityDefaults) ∧
    detectLinguisticPatterns none "hello world" = .ok [] :=
  rhetorical_sub_analyses_degrade "hello world" (fun _ _ => 0)
    (fun _ => .error "err") "err" (by decide)

/-- Counterexample to C9: the text mentioning both 1850 and 1900 — two
distinct references in `[1800, 1975)` with no other branch applicable — is
scored 1 − 0.1 = 0.9, not the 1 − 0.1·2 = 0.8 a per-reference penalty would
give. -/
theorem recent_past_flat_penalty_cex :
    recentPastYears "in 1850 and in 1900." = [1850, 1900] ∧
    futureYears "in 1850 and in 1900." = [] ∧
    veryOldYears "in 1850 and in 1900." = [] ∧
    oldYears "in 1850 and in 1900." = [] ∧
    (checkTemporalConsistency "in 1850 and in 1900.").temporal_consistency_score = 0.9 := by
  refine ⟨by decide, by decide, by decide, by decide, ?_⟩
  have hy : (yearMatches "in 1850 and in 1900.").isEmpty = false := by decide
  have h1 : (veryOldYears "in 1850 and in 1900.").isEmpty = true := by decide
  have h2 : (recentPastYears "in 1850 and in 1900.").isEmpty = false := by decide
  have h3 : (oldYears "in 1850 and in 1900.").isEmpty = true := by decide
  have h4 : (futureYears "in 1850 and in 1900.").isEmpty = true := by decide
  have h5 : hasModernContext "in 1850 and in 1900." = false := by decide
  simp [checkTemporalConsistency, hy, h1, h2, h3, h4, h5]
  norm_num

/-- Amended C9: when the extracted years contain a reference in
`[1800, currentYear − 50)` and no branch of the old-year chain before it
applies (the future-year deduction being separate), the temporal score
decreases by a flat 0.1 — once, regardless of how many such references
occur — before the clamp at 0. -/
theorem recent_past_penalty_flat :
    ∀ text : String,
      veryOldYears text = [] →
      (oldYears text = [] ∨ hasModernContext text = false) →
      recentPastYears text ≠ [] →
      (checkTemporalConsistency text).temporal_consistency_score =
        max 0 ((if (futureYears text).isEmpty then (1 : ℚ) else 1 - 0.4) - 0.1) := by
  intro text hvo hom hrp
  have hyne : (yearMatches text).isEmpty = false := by
    cases hq : yearMatches text with
    | nil => exact absurd (by simp [recentPastYears, hq]) hrp
    | cons a l => rfl
  have h1 : (veryOldYears text).isEmpty = true := by simp [hvo]
  have h2 : (recentPastYears text).isEmpty = false := by
    cases hq : recentPastYears text with
    | nil => exact absurd hq hrp
    | cons a l => rfl
  have h3 : (!(oldYears text).isEmpty && hasModernContext text) = false := by
    rcases hom with h | h <;> simp [h]
  simp only [checkTemporalConsistency, hyne, h1, h2, h3, Bool.not_true, Bool.not_false,
    Bool.false_and, Bool.false_eq_true, if_false, if_true]
  cases hf : (futureYears text).isEmpty <;> simp [hf] <;> norm_num

/-- Witness for the amended C9 at the concrete two-reference text. -/
theorem recent_past_penalty_flat_witness :
    (checkTemporalConsistency "in 1850 and in 1900.").temporal_consistency_score =
      max 0 ((if (futureYears "in 1850 and in 1900.").isEmpty then (1 : ℚ) else 1 - 0.4) - 0.1) :=
  recent_past_penalty_flat "in 1850 and in 1900." (by decide) (Or.inl (by decide)) (by decide)

/-- Claim C10: the AI-generation bonus of the raw 0-10 sensitivity is +0.20
above 5.0, +0.12 on (4.2, 5.0], +0.08 on (3.8, 4.2], +0.04 on (3.5, 3.8] and
0 at or below 3.5; the `ai_detected` flag is set exactly above 4.2; and the
bonused weighted sum is clamped to the unit interval. -/
theorem ai_bonus_tiers :
    (∀ v : ℚ,
      (5 < v → aiBonus v = 0.20) ∧
      (4.2 < v ∧ v ≤ 5 → aiBonus v = 0.12) ∧
      (3.8 < v ∧ v ≤ 4.2 → aiBonus v = 0.08) ∧
      (3.5 < v ∧ v ≤ 3.8 → aiBonus v = 0.04) ∧
      (v ≤ 3.5 → aiBonus v = 0) ∧
      (aiDetectedFlag v = true ↔ 4.2 < v))
    ∧ (∀ (features : List ℚ) (v : ℚ),
        0 ≤ (simpleWeightedFusion features v).fake_probability ∧
        (simpleWeightedFusion features v).fake_probability ≤ 1) := by
  constructor
  · intro v
    refine ⟨?_, ?_, ?_, ?_, ?_, ?_⟩
    · intro h
      unfold aiBonus
      split_ifs with h1 h2 h3 h4 <;> first | rfl | (exfalso; norm_num at *; linarith)
    · rintro ⟨ha, hb⟩
      unfold aiBonus
      split_ifs with h1 h2 h3 h4 <;> first | rfl | (exfalso; norm_num at *; linarith)
    · rintro ⟨ha, hb⟩
      unfold aiBonus
      split_ifs with h1 h2 h3 h4 <;> first | rfl | (exfalso; norm_num at *; linarith)
    · rintro ⟨ha, hb⟩
      unfold aiBonus
      split_ifs with h1 h2 h3 h4 <;> first | rfl | (exfalso; norm_num at *; linarith)
    · intro h
      unfold aiBonus
      split_ifs with h1 h2 h3 h4 <;> first | rfl | (exfalso; norm_num at *; linarith)
    · constructor
      · intro hf
        unfold aiDetectedFlag at hf
        split_ifs at hf with h1 h2 <;> first | (norm_num at *; linarith) | exact absurd hf (by decide)
      · intro h
        unfold aiDetectedFlag
        split_ifs with h1 h2 <;> first | rfl | (exfalso; norm_num at *; linarith)
  · intro features v
    exact simpleWeightedFusion_mem features v

/-- Witness for C10: the tier facts evaluated at concrete sensitivities. -/
theorem ai_bonus_tiers_witness :
    aiBonus 5.5 = 0.20 ∧ aiBonus 4.5 = 0.12 ∧ aiBonus 4.0 = 0.08 ∧
    aiBonus 3.6 = 0.04 ∧ aiBonus 3.5 = 0 ∧ aiDetectedFlag 4.5 = true :=
  ⟨(ai_bonus_tiers.1 5.5).1 (by norm_num),
   (ai_bonus_tiers.1 4.5).2.1 ⟨by norm_num, by norm_num⟩,
   (ai_bonus_tiers.1 4.0).2.2.1 ⟨by norm_num, by norm_num⟩,
   (ai_bonus_tiers.1 3.6).2.2.2.1 ⟨by norm_num, by norm_num⟩,
   (ai_bonus_tiers.1 3.5).2.2.2.2.1 (by norm_num),
   ((ai_bonus_tiers.1 4.5).2.2.2.2.2).mpr (by norm_num)⟩

end ImprovedDetection
